import Mathlib

/-!
Verification of the protocol-binding layer and class-construction algorithm
of a dynamically-typed language runtime (RustPython's `vm` crate).

The development has two parts:

* A concrete model of the capability-handle constructors in
  `vm/src/function/protocol.rs` (`ArgCallable`, `ArgIterable`, `ArgSequence`),
  together with the lazy-iteration adapter they share.
* An oracle-parametrised model of `__build_class__` from
  `vm/src/stdlib/builtins.rs`: the external object system (attribute lookup,
  generic calls, subclass queries, namespace mutation) is supplied as a
  context of functions over an abstract state, and the algorithm itself is
  transcribed from the source control flow.

Errors: the runtime reports capability failures as type errors
(`vm.new_type_error`); the spec's `TypeMismatch` taxon corresponds to
`PyErr.typeError` below, and a separate `PyErr.runtimeError` constructor is
kept so that claims about `RuntimeError` can be stated and compared.
-/

set_option autoImplicit false

/-- Errors surfaced by the modelled runtime. `typeError` models
`vm.new_type_error` (the spec's `TypeMismatch`), `runtimeError` models a
Python `RuntimeError`, and `user` models arbitrary pass-through errors
raised by invoked user code. -/
inductive PyErr where
  | typeError (msg : String)
  | runtimeError (msg : String)
  | user (tag : Nat)
deriving DecidableEq, Repr

/-! ## Protocol-handle model (`vm/src/function/protocol.rs`)

Each type descriptor is a linearized MRO of entries, each entry carrying the
optional slots the claims need (`call`, `iter`) and whether the class
dictionary at that entry defines `__getitem__`.  Slot resolution
(`mro_find_map` / `resolve_slot` in the spec's §6) is a first-hit linear
scan. -/

/-- One entry of a type's linearized MRO: its optional capability slots
(function-pointer identities as `Nat`) and whether it defines a
`__getitem__` attribute. -/
structure TypeEntry where
  callSlot : Option Nat
  iterSlot : Option Nat
  getitemAttr : Bool
deriving DecidableEq, Repr

/-- A type descriptor: a name and a linearized MRO (the type itself first). -/
structure PyClassP where
  name : String
  mro : List TypeEntry
deriving DecidableEq, Repr

/-- `PyType::mro_find_map`: walk the MRO, return the first slot found. -/
def mroFindMap (mro : List TypeEntry) (f : TypeEntry → Option Nat) : Option Nat :=
  match mro with
  | [] => none
  | e :: rest =>
    match f e with
    | some v => some v
    | none => mroFindMap rest f

/-- `PyType::has_attr` restricted to `__getitem__`: attribute lookup walks
the MRO. -/
def hasGetitem (cls : PyClassP) : Bool :=
  cls.mro.any (fun e => e.getitemAttr)

/-- A dynamic object for the protocol claims.  Besides its class it carries
its iteration behaviour: `slotStream` is the pull sequence produced by
invoking the resolved iterate slot (or an error if iterator creation fails),
and `items` is the indexed-subscript table used by the fallback cursor
(index `i` yields `items[i]`; indices past the end signal out-of-range,
i.e. completion). -/
structure PyObjP where
  cls : PyClassP
  slotStream : Except PyErr (List (Except PyErr Nat))
  items : List (Except PyErr Nat)
deriving Repr

/-- `PyObject::to_callable`: resolve the `call` slot over the object's MRO
(the object-model collaborator of spec §6, `resolve_slot(type, call)`). -/
def toCallable (obj : PyObjP) : Option Nat :=
  mroFindMap obj.cls.mro (fun e => e.callSlot)

/-- `ArgCallable`: the object together with its resolved call slot. -/
structure ArgCallableP where
  obj : PyObjP
  call : Nat
deriving Repr

/-- `ArgCallable::try_from_object` (protocol.rs:58-68): fail with a type
error when no call slot resolves, otherwise store the object and the slot. -/
def ArgCallableP.try_from_object (obj : PyObjP) : Except PyErr ArgCallableP :=
  match toCallable obj with
  | none =>
    Except.error (PyErr.typeError
      ("'" ++ obj.cls.name ++ "' object is not callable"))
  | some c => Except.ok { obj := obj, call := c }

/-- `ArgIterable`: the iterable object and the (optionally) resolved iterate
slot; `iter_fn = none` records that fallback iteration must be used. -/
structure ArgIterableP where
  iterable : PyObjP
  iter_fn : Option Nat
deriving Repr

/-- `ArgIterable::try_from_object` (protocol.rs:103-122): resolve the iterate
slot over the MRO; fail with a type error when it is absent and the class
has no `__getitem__` either. -/
def ArgIterableP.try_from_object (obj : PyObjP) : Except PyErr ArgIterableP :=
  let cls := obj.cls
  let iter_fn := mroFindMap cls.mro (fun e => e.iterSlot)
  if iter_fn.isNone && !(hasGetitem cls) then
    Except.error (PyErr.typeError ("'" ++ cls.name ++ "' object is not iterable"))
  else
    Except.ok { iterable := obj, iter_fn := iter_fn }

/-- Modelled from the spec: `PySequenceIterator::new` (defined in
`vm/src/builtins/iter.rs`, which is not among the shown sources) builds an
internal cursor that repeatedly invokes indexed subscript access with
ascending integer indices starting at 0, until an out-of-range signal. -/
structure PySequenceIteratorP where
  obj : PyObjP
  position : Nat
deriving Repr

/-- The fallback cursor starts at index 0. -/
def PySequenceIteratorP.new (obj : PyObjP) : PySequenceIteratorP :=
  { obj := obj, position := 0 }

/-- Pull sequence of the fallback cursor: subscript at `position`,
`position + 1`, ... until out of range. -/
def PySequenceIteratorP.pulls (it : PySequenceIteratorP) : List (Except PyErr Nat) :=
  it.obj.items.drop it.position

/-- `ArgIterable::iter` (protocol.rs:94-100), realization step: invoke the
resolved iterate slot, or in fallback mode build the subscript cursor.  The
result is the sequence of raw pulls the realized iterator will produce. -/
def ArgIterableP.iterPulls (h : ArgIterableP) : Except PyErr (List (Except PyErr Nat)) :=
  match h.iter_fn with
  | some _ => h.iterable.slotStream
  | none => Except.ok (PySequenceIteratorP.new h.iterable).pulls

/-- Driving the lazy adapter to completion: convert each pulled element,
stopping at the first error (either a pull error or a conversion error). -/
def driveIter {α : Type} (conv : Nat → Except PyErr α) :
    List (Except PyErr Nat) → Except PyErr (List α)
  | [] => Except.ok []
  | Except.error e :: _ => Except.error e
  | Except.ok v :: rest =>
    match conv v with
    | Except.error e => Except.error e
    | Except.ok t =>
      match driveIter conv rest with
      | Except.error e => Except.error e
      | Except.ok ts => Except.ok (t :: ts)

/-- Modelled from the spec: the eager drain loop behind
`obj.try_to_value::<Vec<T>>` (the `Vec<T>` conversion lives outside the
shown sources).  It pushes converted elements onto an accumulator, failing
fast at the first pull or conversion error, and exposes no partial result. -/
def drainLoop {α : Type} (conv : Nat → Except PyErr α) :
    List (Except PyErr Nat) → List α → Except PyErr (List α)
  | [], acc => Except.ok acc.reverse
  | Except.error e :: _, _ => Except.error e
  | Except.ok v :: rest, acc =>
    match conv v with
    | Except.error e => Except.error e
    | Except.ok t => drainLoop conv rest (t :: acc)

/-- `ArgSequence`: the owned, eagerly materialized vector. -/
structure ArgSequenceP (α : Type) where
  vec : List α
deriving Repr

/-- `ArgSequence::try_from_object` (protocol.rs:242-246): modelled from the
spec, it eagerly drains the object through the general iteration protocol
(binding an iterable handle, realizing its iterator, then converting each
element in order, fail-fast). -/
def ArgSequenceP.try_from_object {α : Type} (conv : Nat → Except PyErr α)
    (obj : PyObjP) : Except PyErr (ArgSequenceP α) :=
  match ArgIterableP.try_from_object obj with
  | Except.error e => Except.error e
  | Except.ok h =>
    match h.iterPulls with
    | Except.error e => Except.error e
    | Except.ok pulls =>
      match drainLoop conv pulls [] with
      | Except.error e => Except.error e
      | Except.ok v => Except.ok { vec := v }

/-! ## Class-construction model (`vm/src/stdlib/builtins.rs`, `__build_class__`)

The algorithm is transcribed over an oracle context `VMCtx σ`: the external
object system (spec §6) is a record of functions over an abstract mutable
state `σ`.  Effectful operations have type `Eff σ α = σ → Except PyErr α × σ`;
an error also carries the state at the point of failure, so that operations
whose errors the algorithm discards (`.ok()`, `if let Ok(..)`) keep their
side effects, as in the source. -/

/-- An object reference: identity (`is`, i.e. pointer equality) is equality
of the underlying id. -/
structure Obj where
  id : Nat
deriving DecidableEq, Repr

/-- Effectful computation against the external object system. -/
def Eff (σ α : Type) : Type := σ → Except PyErr α × σ

/-- Return a value, leaving the state unchanged. -/
def Eff.pure {σ α : Type} (a : α) : Eff σ α := fun s => (Except.ok a, s)

/-- Sequencing: propagate the first error (with its state). -/
def Eff.bind {σ α β : Type} (x : Eff σ α) (f : α → Eff σ β) : Eff σ β := fun s =>
  match x s with
  | (Except.ok a, s1) => f a s1
  | (Except.error e, s1) => (Except.error e, s1)

/-- Raise an error, leaving the state unchanged. -/
def Eff.throw {σ α : Type} (e : PyErr) : Eff σ α := fun s => (Except.error e, s)

/-- Run an effect and discard its error, keeping its state change
(models Rust's `.ok()` and `if let Ok(..) = ...` patterns). -/
def Eff.ignoreErr {σ α : Type} (x : Eff σ α) : Eff σ Unit := fun s =>
  (Except.ok (), (x s).2)

/-- The external object system consumed by `__build_class__` (spec §6),
over an abstract state `σ`. -/
structure VMCtx (σ : Type) where
  /-- `vm.ctx.types.type_type`, the root type object. -/
  typeType : Obj
  /-- `obj.fast_isinstance(vm.ctx.types.type_type)`. -/
  isTypeInstance : Obj → Bool
  /-- `obj.downcast_exact::<PyType>(vm)` succeeds, i.e. the object's class
  is exactly the root type object. -/
  downcastExactType : Obj → Bool
  /-- `obj.class()`, as an object reference to the type. -/
  classOf : Obj → Obj
  /-- `a.fast_issubclass(b)`. -/
  fastIssubclass : Obj → Obj → Bool
  /-- `PyType::slot_name`. -/
  slotName : Obj → String
  /-- `vm.ctx.new_str`. -/
  newStr : String → Obj
  /-- `PyTuple::new_ref`. -/
  newTuple : List Obj → Obj
  /-- `vm.ctx.new_dict()`: allocate a fresh empty dict. -/
  newDict : σ → Obj × σ
  /-- `ArgMapping::try_from_object` succeeds on this object (it satisfies
  the mapping protocol). -/
  isMapping : Obj → Bool
  /-- `vm.get_attribute_opt(obj, name)`. -/
  getAttributeOpt : Obj → String → Eff σ (Option Obj)
  /-- `obj.get_attr(name, vm)`. -/
  getAttr : Obj → String → Eff σ Obj
  /-- `callable.call((positional args), kwargs, vm)`. -/
  call : Obj → List Obj → List (String × Obj) → Eff σ Obj
  /-- `obj.downcast::<PyTuple>()` / `obj.downcast_ref::<PyTuple>()`:
  the element list when the object is a tuple. -/
  downcastTuple : Obj → Option (List Obj)
  /-- `obj.set_item(key, value, vm)` (mapping protocol). -/
  setItem : Obj → String → Obj → Eff σ Unit
  /-- `obj.del_item(key, vm)` (mapping protocol). -/
  delItem : Obj → String → Eff σ Unit
  /-- `obj.set_attr(name, value, vm)`. -/
  setAttr : Obj → String → Obj → Eff σ Unit
  /-- `function.invoke_with_locals((), Some(namespace), vm)`: execute the
  class body with the prepared namespace, returning its result. -/
  invokeWithLocals : Obj → Obj → Eff σ Obj
  /-- `vm.is_none(obj)`. -/
  isNone : Obj → Bool
  /-- `obj.downcast::<PyCell>()`: the cell's identity when the object is a
  cell. -/
  downcastCell : Obj → Option Nat
  /-- `cell.get()`: current contents of the cell in state `σ`. -/
  cellGet : Nat → σ → Option Obj

/-- `qualified_name.as_str().split('.').next_back().unwrap()` at the level
of character lists: the characters after the last `'.'` (the whole list when
no `'.'` occurs). -/
def lastComponent (l : List Char) : List Char :=
  (l.reverse.takeWhile (fun c => c ≠ '.')).reverse

/-- The class name extracted from the qualified name
(builtins.rs:882). -/
def classTargetName (qualified_name : String) : String :=
  String.mk (lastComponent qualified_name.data)

/-- `kwargs.pop_kwarg(name)`: the value under `name` (first occurrence) and
the remaining keyword arguments. -/
def popKwarg (name : String) : List (String × Obj) → Option Obj × List (String × Obj)
  | [] => (none, [])
  | (k, v) :: rest =>
    if k = name then (some v, rest)
    else
      let r := popKwarg name rest
      (r.1, (k, v) :: r.2)

/-- Phase 1 of `__build_class__` (builtins.rs:886-911): base normalization.
`basesT` is the original base tuple object, `allBases` its element list;
the loop walks the remaining bases with their index `i`, carrying the
optional replacement list `acc` (`new_bases` in the source). -/
def normalizeBases {σ : Type} (C : VMCtx σ) (basesT : Obj) (allBases : List Obj) :
    List Obj → Nat → Option (List Obj) → Eff σ (Option (List Obj))
  | [], _, acc => Eff.pure acc
  | base :: rest, i, acc =>
    if C.isTypeInstance base then
      normalizeBases C basesT allBases rest (i + 1) (acc.map (fun l => l ++ [base]))
    else
      Eff.bind (C.getAttributeOpt base "__mro_entries__") (fun mroEntries =>
        match mroEntries with
        | none =>
          normalizeBases C basesT allBases rest (i + 1) (acc.map (fun l => l ++ [base]))
        | some meth =>
          Eff.bind (C.call meth [basesT] []) (fun entries =>
            match C.downcastTuple entries with
            | none => Eff.throw (PyErr.typeError "__mro_entries__ must return a tuple")
            | some entriesL =>
              normalizeBases C basesT allBases rest (i + 1)
                (some ((acc.getD (allBases.take i)) ++ entriesL))))

/-- The metaclass-conflict error raised in phase 2 (builtins.rs:936-939). -/
def metaclassConflictError : PyErr :=
  PyErr.typeError
    "metaclass conflict: the metaclass of a derived class must be a (non-strict) subclass of the metaclasses of all its bases"

/-- Phase 2 loop of `__build_class__` (builtins.rs:931-941): fold the
candidate metaclass over the (normalized) bases, left to right. -/
def calculateMeta {σ : Type} (C : VMCtx σ) : Obj → List Obj → Except PyErr Obj
  | m, [] => Except.ok m
  | m, base :: rest =>
    let base_class := C.classOf base
    if C.fastIssubclass base_class m then calculateMeta C base_class rest
    else if C.fastIssubclass m base_class then calculateMeta C m rest
    else Except.error metaclassConflictError

/-- `vm.ctx.new_dict()` as an effect. -/
def Eff.newDictE {σ : Type} (C : VMCtx σ) : Eff σ Obj := fun s =>
  let p := C.newDict s
  (Except.ok p.1, p.2)

/-- builtins.rs:969-983: if the class-body function has a non-empty
`__type_params__` tuple, store it in the namespace under `.type_params`
(errors of the attribute read are discarded by `if let Ok`; errors of the
store propagate). -/
def setTypeParamsPre {σ : Type} (C : VMCtx σ) (function ns : Obj) : Eff σ Unit := fun s =>
  match C.getAttr function "__type_params__" s with
  | (Except.error _, s1) => (Except.ok (), s1)
  | (Except.ok tp, s1) =>
    match C.downcastTuple tp with
    | some l => if l.isEmpty then (Except.ok (), s1) else C.setItem ns ".type_params" tp s1
    | none => (Except.ok (), s1)

/-- builtins.rs:1006-1017: after the metaclass call, attach a non-empty
`__type_params__` tuple to the class under `__type_params__` and
`__parameters__` (attribute-read errors discarded, set errors propagate). -/
def setTypeParamsPost {σ : Type} (C : VMCtx σ) (function cls : Obj) : Eff σ Unit := fun s =>
  match C.getAttr function "__type_params__" s with
  | (Except.error _, s1) => (Except.ok (), s1)
  | (Except.ok tp, s1) =>
    match C.downcastTuple tp with
    | some l =>
      if l.isEmpty then (Except.ok (), s1)
      else
        Eff.bind (C.setAttr cls "__type_params__" tp)
          (fun _ => C.setAttr cls "__parameters__" tp) s1
    | none => (Except.ok (), s1)

/-- `<Option<PyCellRef>>::try_from_object` (builtins.rs:986): `None` for the
none object, the cell for a cell, a type error otherwise. -/
def cellFromObject {σ : Type} (C : VMCtx σ) (o : Obj) : Eff σ (Option Nat) :=
  if C.isNone o then Eff.pure none
  else
    match C.downcastCell o with
    | some cid => Eff.pure (some cid)
    | none => Eff.throw (PyErr.typeError "expected cell")

/-- builtins.rs:1019-1031, phase 5 tail: verify the captured class cell
against the constructed class, then return the class. -/
def verifyCell {σ : Type} (C : VMCtx σ) (meta_name : String) (classcell : Option Nat)
    (cls : Obj) : Eff σ Obj :=
  match classcell with
  | none => Eff.pure cls
  | some cid => fun s =>
    match C.cellGet cid s with
    | none =>
      (Except.error (PyErr.typeError
        ("__class__ not set defining " ++ meta_name
          ++ ". Was __classcell__ propagated to type.__new__?")), s)
    | some v =>
      if v = cls then (Except.ok cls, s)
      else
        (Except.error (PyErr.typeError
          ("__class__ set to another object defining " ++ meta_name)), s)

/-- `__build_class__` (builtins.rs:875-1034), transcribed phase by phase. -/
def buildClass {σ : Type} (C : VMCtx σ) (function : Obj) (qualified_name : String)
    (bases : List Obj) (kwargs : List (String × Obj)) : Eff σ Obj :=
  let name := classTargetName qualified_name
  let name_obj := C.newStr name
  let basesT := C.newTuple bases
  Eff.bind (normalizeBases C basesT bases bases 0 none) (fun new_bases =>
  let orig_bases : Option Obj :=
    match new_bases with
    | some _ => some basesT
    | none => none
  let basesL : List Obj :=
    match new_bases with
    | some v => v
    | none => bases
  let basesObj : Obj :=
    match new_bases with
    | some v => C.newTuple v
    | none => basesT
  let pk := popKwarg "metaclass" kwargs
  let metaclassR : Except Obj Obj :=
    match pk.1 with
    | some m => if C.downcastExactType m then Except.ok m else Except.error m
    | none => Except.ok C.typeType
  let mres : Except PyErr (Obj × String) :=
    match metaclassR with
    | Except.ok m0 =>
      match calculateMeta C m0 basesL with
      | Except.ok m => Except.ok (m, C.slotName m)
      | Except.error e => Except.error e
    | Except.error obj => Except.ok (obj, "<metaclass>")
  match mres with
  | Except.error e => Eff.throw e
  | Except.ok (metaclass, meta_name) =>
    Eff.bind (C.getAttributeOpt metaclass "__prepare__") (fun prepareOpt =>
    Eff.bind (match prepareOpt with
      | none => Eff.newDictE C
      | some p => C.call p [name_obj, basesObj] pk.2) (fun ns =>
    if C.isMapping ns then
      Eff.bind (setTypeParamsPre C function ns) (fun _ =>
      Eff.bind (C.invokeWithLocals function ns) (fun cellObj =>
      Eff.bind (cellFromObject C cellObj) (fun classcell =>
      Eff.bind (match orig_bases with
        | some ob => C.setItem ns "__orig_bases__" ob
        | none => Eff.pure ()) (fun _ =>
      Eff.bind (Eff.ignoreErr (C.delItem ns ".type_params")) (fun _ =>
      Eff.bind (C.call metaclass [name_obj, basesObj, ns] pk.2) (fun cls =>
      Eff.bind (setTypeParamsPost C function cls) (fun _ =>
      verifyCell C meta_name classcell cls)))))))
    else
      Eff.throw (PyErr.typeError
        (meta_name ++ ".__prepare__() must return a mapping, not "
          ++ C.slotName (C.classOf ns))))))

/-! ## A concrete object world for witnesses

A small world over state `σ := Nat` (a step counter used to observe side
effects).  Object ids: 0 the root type object; 1, 2 the metaclasses `t1`,
`t2`; 3, 4 the type-object bases `b1 : t1`, `b2 : t2`; 5 a class-body
function; 6 the fresh dict; 7 the class produced by the metaclass call;
8 a `__prepare__` hook; 9 its non-mapping result; 10 a tuple object with
elements 11, 12; 13 a non-type base without hooks; 14/17/18 cell objects
for cells 1 (empty), 2 (holding the class 7), 3 (holding 99); 15 the none
object; 16 a non-type base exposing `__mro_entries__` via method 19;
20 a non-type explicit metaclass whose call returns 21; 51, 52, 53
class-body functions returning the cells 14, 17, 18. -/

/-- Witness world: subclass pairs `t1 <: type`, `t2 <: type`, `t2 <: t1`
(plus reflexivity). -/
def wIssub (a b : Obj) : Bool :=
  a == b || (a.id == 1 && b.id == 0) || (a.id == 2 && b.id == 0)
    || (a.id == 2 && b.id == 1)

/-- Witness world: base oracle context. -/
def baseCtx : VMCtx Nat where
  typeType := ⟨0⟩
  isTypeInstance := fun o => o.id == 3 || o.id == 4
  downcastExactType := fun o => o.id == 0
  classOf := fun o => if o.id == 3 then ⟨1⟩ else if o.id == 4 then ⟨2⟩ else ⟨90⟩
  fastIssubclass := wIssub
  slotName := fun o => if o.id == 0 then "type" else if o.id == 9 then "int" else "cls"
  newStr := fun _ => ⟨50⟩
  newTuple := fun l => ⟨60 + (l.map (fun o => o.id)).sum⟩
  newDict := fun s => (⟨6⟩, s)
  isMapping := fun o => o.id == 6
  getAttributeOpt := fun o a s =>
    (Except.ok (if o.id == 16 && a == "__mro_entries__" then some ⟨19⟩ else none), s)
  getAttr := fun _ _ s => (Except.error (PyErr.typeError "attribute"), s)
  call := fun c _ _ s =>
    (Except.ok (if c.id == 19 then ⟨10⟩ else if c.id == 20 then ⟨21⟩
      else if c.id == 8 then ⟨9⟩ else ⟨7⟩), s)
  downcastTuple := fun o => if o.id == 10 then some [⟨11⟩, ⟨12⟩] else none
  setItem := fun _ _ _ s => (Except.ok (), s)
  delItem := fun _ _ s => (Except.ok (), s)
  setAttr := fun _ _ _ s => (Except.ok (), s)
  invokeWithLocals := fun f _ s =>
    (Except.ok (if f.id == 51 then ⟨14⟩ else if f.id == 52 then ⟨17⟩
      else if f.id == 53 then ⟨18⟩ else ⟨15⟩), s)
  isNone := fun o => o.id == 15
  downcastCell := fun o =>
    if o.id == 14 then some 1 else if o.id == 17 then some 2
    else if o.id == 18 then some 3 else none
  cellGet := fun cid _ =>
    if cid == 2 then some ⟨7⟩ else if cid == 3 then some ⟨90⟩ else none

/-! ## Shared hypothesis bundles

Scenario hypotheses reused by several claims: each pins the behaviour of one
external-oracle call, state-preservingly, for every state. -/

/-- The metaclass `m` has no `__prepare__` attribute, fresh dicts are the
object `d`, and `d` satisfies the mapping protocol. -/
def QuietPrepare {σ : Type} (C : VMCtx σ) (m d : Obj) : Prop :=
  (∀ s, C.getAttributeOpt m "__prepare__" s = (Except.ok none, s)) ∧
  (∀ s, C.newDict s = (d, s)) ∧ C.isMapping d = true

/-- Reading `__type_params__` off the class-body function `f` fails with
`e0` (the function carries no generic type-parameter metadata). -/
def NoTypeParams {σ : Type} (C : VMCtx σ) (f : Obj) (e0 : PyErr) : Prop :=
  ∀ s, C.getAttr f "__type_params__" s = (Except.error e0, s)

/-- Deleting `.type_params` from the namespace `d` succeeds silently. -/
def QuietDelete {σ : Type} (C : VMCtx σ) (d : Obj) : Prop :=
  ∀ s, C.delItem d ".type_params" s = (Except.ok (), s)

/-- Executing the class body `f` with namespace `d` returns `r`. -/
def BodyReturns {σ : Type} (C : VMCtx σ) (f d r : Obj) : Prop :=
  ∀ s, C.invokeWithLocals f d s = (Except.ok r, s)

/-- C1: with bases `[B1 : T1, B2 : T2]` (both type objects) and no explicit
metaclass keyword, `__build_class__` scans the bases left to right starting
from the root type object, adopting a base's type whenever it is a
subclass-or-equal of the current candidate: when `T2 <: T1` the selected
metaclass is `T2` (the class object is the result of calling `T2`), and when
`T1`, `T2` are unrelated the construction fails with the metaclass-conflict
error. -/
theorem C1_metaclass_selection {σ : Type} (C : VMCtx σ) (s : σ)
    (f b1 b2 t1 t2 d nobj cls : Obj) (e0 : PyErr)
    (hb1 : C.isTypeInstance b1 = true) (hb2 : C.isTypeInstance b2 = true)
    (hc1 : C.classOf b1 = t1) (hc2 : C.classOf b2 = t2)
    (ht1 : C.fastIssubclass t1 C.typeType = true) :
    (C.fastIssubclass t2 t1 = true →
      calculateMeta C C.typeType [b1, b2] = Except.ok t2) ∧
    (C.fastIssubclass t2 t1 = true →
      QuietPrepare C t2 d → NoTypeParams C f e0 → BodyReturns C f d nobj →
      C.isNone nobj = true → QuietDelete C d →
      (∀ u, C.call t2 [C.newStr "C", C.newTuple [b1, b2], d] [] u = (Except.ok cls, u)) →
      buildClass C f "C" [b1, b2] [] s = (Except.ok cls, s)) ∧
    (C.fastIssubclass t2 t1 = false → C.fastIssubclass t1 t2 = false →
      buildClass C f "C" [b1, b2] [] s = (Except.error metaclassConflictError, s)) := by
  refine ⟨?_, ?_, ?_⟩
  · intro h21
    simp [calculateMeta, hc1, hc2, ht1, h21]
  · intro h21 hq htp hbody hnone hdel hcall
    obtain ⟨hprep, hdict, hmap⟩ := hq
    unfold NoTypeParams at htp
    unfold BodyReturns at hbody
    unfold QuietDelete at hdel
    simp [buildClass, normalizeBases, hb1, hb2, popKwarg, calculateMeta, hc1, hc2,
      ht1, h21, Eff.bind, Eff.pure, Eff.throw, Eff.newDictE, Eff.ignoreErr,
      setTypeParamsPre, setTypeParamsPost, cellFromObject, verifyCell,
      show classTargetName "C" = "C" from rfl,
      hprep, hdict, hmap, htp, hbody, hnone, hdel, hcall]
  · intro h21 h12
    simp [buildClass, normalizeBases, hb1, hb2, popKwarg, calculateMeta, hc1, hc2,
      ht1, h21, h12, Eff.bind, Eff.pure, Eff.throw]

/-- Witness world where `t1` and `t2` are unrelated (each only a subclass
of the root type object and itself). -/
def unrelatedIssub (a b : Obj) : Bool :=
  a == b || (a.id == 1 && b.id == 0) || (a.id == 2 && b.id == 0)

/-- `baseCtx` with unrelated metaclasses `t1`, `t2`. -/
def ctxUnrelated : VMCtx Nat := { baseCtx with fastIssubclass := unrelatedIssub }

theorem C1_metaclass_selection_witness :
    calculateMeta baseCtx baseCtx.typeType [⟨3⟩, ⟨4⟩] = Except.ok ⟨2⟩ ∧
    buildClass baseCtx ⟨5⟩ "C" [⟨3⟩, ⟨4⟩] [] 0 = (Except.ok ⟨7⟩, 0) ∧
    buildClass ctxUnrelated ⟨5⟩ "C" [⟨3⟩, ⟨4⟩] [] 0 =
      (Except.error metaclassConflictError, 0) := by
  refine ⟨?_, ?_, ?_⟩
  · exact (C1_metaclass_selection baseCtx 0 ⟨5⟩ ⟨3⟩ ⟨4⟩ ⟨1⟩ ⟨2⟩ ⟨6⟩ ⟨15⟩ ⟨7⟩
      (PyErr.typeError "attribute") rfl rfl rfl rfl rfl).1 rfl
  · exact (C1_metaclass_selection baseCtx 0 ⟨5⟩ ⟨3⟩ ⟨4⟩ ⟨1⟩ ⟨2⟩ ⟨6⟩ ⟨15⟩ ⟨7⟩
      (PyErr.typeError "attribute") rfl rfl rfl rfl rfl).2.1 rfl
      ⟨fun _ => rfl, fun _ => rfl, rfl⟩ (fun _ => rfl) (fun _ => rfl) rfl
      (fun _ => rfl) (fun _ => rfl)
  · exact (C1_metaclass_selection ctxUnrelated 0 ⟨5⟩ ⟨3⟩ ⟨4⟩ ⟨1⟩ ⟨2⟩ ⟨6⟩ ⟨15⟩ ⟨7⟩
      (PyErr.typeError "attribute") rfl rfl rfl rfl rfl).2.2 rfl rfl

/-- Discriminator used to compare the raised error against the claim's
`RuntimeError` taxon. -/
def isRuntimeError : PyErr → Bool
  | PyErr.runtimeError _ => true
  | _ => false

/-- C2 (amended): in a class construction whose body returns a class cell,
an empty (never-written) cell fails with a `TypeMismatch` (type error — not
`RuntimeError`) carrying the "__class__ not set" message; a cell holding an
object not identical to the constructed type fails with a `TypeMismatch`;
a body returning no cell (the none object) succeeds with no verification
performed; and a cell holding exactly the constructed type succeeds. -/
theorem C2_classcell_verification {σ : Type} (C : VMCtx σ) (s : σ)
    (d cls : Obj) (e0 : PyErr)
    (hq : QuietPrepare C C.typeType d)
    (hdel : QuietDelete C d)
    (hcall : ∀ u, C.call C.typeType [C.newStr "C", C.newTuple [], d] [] u =
      (Except.ok cls, u)) :
    (∀ f r, NoTypeParams C f e0 → BodyReturns C f d r → C.isNone r = true →
      buildClass C f "C" [] [] s = (Except.ok cls, s)) ∧
    (∀ f r cid, NoTypeParams C f e0 → BodyReturns C f d r → C.isNone r = false →
      C.downcastCell r = some cid → C.cellGet cid s = none →
      buildClass C f "C" [] [] s =
        (Except.error (PyErr.typeError
          ("__class__ not set defining " ++ C.slotName C.typeType
            ++ ". Was __classcell__ propagated to type.__new__?")), s)) ∧
    (∀ f r cid v, NoTypeParams C f e0 → BodyReturns C f d r → C.isNone r = false →
      C.downcastCell r = some cid → C.cellGet cid s = some v → v ≠ cls →
      buildClass C f "C" [] [] s =
        (Except.error (PyErr.typeError
          ("__class__ set to another object defining " ++ C.slotName C.typeType)), s)) ∧
    (∀ f r cid, NoTypeParams C f e0 → BodyReturns C f d r → C.isNone r = false →
      C.downcastCell r = some cid → C.cellGet cid s = some cls →
      buildClass C f "C" [] [] s = (Except.ok cls, s)) := by
  obtain ⟨hprep, hdict, hmap⟩ := hq
  unfold QuietDelete at hdel
  refine ⟨?_, ?_, ?_, ?_⟩
  · intro f r htp hbody hnone
    unfold NoTypeParams at htp
    unfold BodyReturns at hbody
    simp [buildClass, normalizeBases, popKwarg, calculateMeta, Eff.bind, Eff.pure,
      Eff.throw, Eff.newDictE, Eff.ignoreErr, setTypeParamsPre, setTypeParamsPost,
      cellFromObject, verifyCell, show classTargetName "C" = "C" from rfl,
      hprep, hdict, hmap, htp, hbody, hnone, hdel, hcall]
  · intro f r cid htp hbody hnone hcell hempty
    unfold NoTypeParams at htp
    unfold BodyReturns at hbody
    simp [buildClass, normalizeBases, popKwarg, calculateMeta, Eff.bind, Eff.pure,
      Eff.throw, Eff.newDictE, Eff.ignoreErr, setTypeParamsPre, setTypeParamsPost,
      cellFromObject, verifyCell, show classTargetName "C" = "C" from rfl,
      hprep, hdict, hmap, htp, hbody, hnone, hcell, hempty, hdel, hcall]
  · intro f r cid v htp hbody hnone hcell hval hne
    unfold NoTypeParams at htp
    unfold BodyReturns at hbody
    simp [buildClass, normalizeBases, popKwarg, calculateMeta, Eff.bind, Eff.pure,
      Eff.throw, Eff.newDictE, Eff.ignoreErr, setTypeParamsPre, setTypeParamsPost,
      cellFromObject, verifyCell, show classTargetName "C" = "C" from rfl,
      hprep, hdict, hmap, htp, hbody, hnone, hcell, hval, hne, hdel, hcall]
  · intro f r cid htp hbody hnone hcell hval
    unfold NoTypeParams at htp
    unfold BodyReturns at hbody
    simp [buildClass, normalizeBases, popKwarg, calculateMeta, Eff.bind, Eff.pure,
      Eff.throw, Eff.newDictE, Eff.ignoreErr, setTypeParamsPre, setTypeParamsPost,
      cellFromObject, verifyCell, show classTargetName "C" = "C" from rfl,
      hprep, hdict, hmap, htp, hbody, hnone, hcell, hval, hdel, hcall]

/-- C2 counterexample to the claim as stated: constructing a class whose
body returns an empty (never-written) class cell fails with a *type error*
("__class__ not set ..."), not with a `RuntimeError`. -/
theorem C2_classcell_counterexample :
    buildClass baseCtx ⟨51⟩ "C" [] [] 0 =
      (Except.error (PyErr.typeError
        "__class__ not set defining type. Was __classcell__ propagated to type.__new__?"), 0) ∧
    (∃ e, (buildClass baseCtx ⟨51⟩ "C" [] [] 0).1 = Except.error e ∧
      isRuntimeError e = false) :=
  ⟨rfl,
    ⟨PyErr.typeError
      "__class__ not set defining type. Was __classcell__ propagated to type.__new__?",
      rfl, rfl⟩⟩

theorem C2_classcell_witness :
    buildClass baseCtx ⟨5⟩ "C" [] [] 0 = (Except.ok ⟨7⟩, 0) ∧
    buildClass baseCtx ⟨51⟩ "C" [] [] 0 =
      (Except.error (PyErr.typeError
        "__class__ not set defining type. Was __classcell__ propagated to type.__new__?"), 0) ∧
    buildClass baseCtx ⟨53⟩ "C" [] [] 0 =
      (Except.error (PyErr.typeError
        "__class__ set to another object defining type"), 0) ∧
    buildClass baseCtx ⟨52⟩ "C" [] [] 0 = (Except.ok ⟨7⟩, 0) := by
  have h := C2_classcell_verification baseCtx 0 ⟨6⟩ ⟨7⟩ (PyErr.typeError "attribute")
    ⟨fun _ => rfl, fun _ => rfl, rfl⟩ (fun _ => rfl) (fun _ => rfl)
  refine ⟨h.1 ⟨5⟩ ⟨15⟩ (fun _ => rfl) (fun _ => rfl) rfl,
    h.2.1 ⟨51⟩ ⟨14⟩ 1 (fun _ => rfl) (fun _ => rfl) rfl rfl rfl,
    h.2.2.1 ⟨53⟩ ⟨18⟩ 3 ⟨90⟩ (fun _ => rfl) (fun _ => rfl) rfl rfl rfl (by decide),
    h.2.2.2 ⟨52⟩ ⟨17⟩ 2 (fun _ => rfl) (fun _ => rfl) rfl rfl rfl⟩

/-- C3: base normalization.  (i) A base tuple of type objects is kept as-is
(no replacement list is started).  (ii) A non-type base exposing
`__mro_entries__` has the hook invoked with the full original base tuple and
its returned tuple spliced in place of that single candidate, while type
bases and hook-less non-type bases are kept unchanged in order.  (iii) When a
replacement happened, `__build_class__` stores the pre-normalization tuple
into the namespace under `__orig_bases__` before invoking the metaclass (the
metaclass call is pinned only at the post-store state `s1`).  (iv) When no
replacement happened, the metaclass receives the original tuple verbatim and
the construction succeeds with no hypothesis about `setItem` at all — the
oracle `C.setItem` is unconstrained, so no original-bases record can have
been written. -/
theorem C3_base_normalization {σ : Type} (C : VMCtx σ) (s : σ) :
    (∀ basesT b1 b2, C.isTypeInstance b1 = true → C.isTypeInstance b2 = true →
      ∀ u, normalizeBases C basesT [b1, b2] [b1, b2] 0 none u = (Except.ok none, u)) ∧
    (∀ basesT b1 bh b3 meth entriesObj r1 r2,
      C.isTypeInstance b1 = true → C.isTypeInstance bh = false →
      C.isTypeInstance b3 = false →
      (∀ u, C.getAttributeOpt bh "__mro_entries__" u = (Except.ok (some meth), u)) →
      (∀ u, C.getAttributeOpt b3 "__mro_entries__" u = (Except.ok none, u)) →
      (∀ u, C.call meth [basesT] [] u = (Except.ok entriesObj, u)) →
      C.downcastTuple entriesObj = some [r1, r2] →
      ∀ u, normalizeBases C basesT [b1, bh, b3] [b1, bh, b3] 0 none u =
        (Except.ok (some [b1, r1, r2, b3]), u)) ∧
    (∀ f b1 bh b3 meth entriesObj r1 r2 t1 d nobj cls e0 s1,
      C.isTypeInstance b1 = true → C.isTypeInstance bh = false →
      C.isTypeInstance b3 = false →
      (∀ u, C.getAttributeOpt bh "__mro_entries__" u = (Except.ok (some meth), u)) →
      (∀ u, C.getAttributeOpt b3 "__mro_entries__" u = (Except.ok none, u)) →
      (∀ u, C.call meth [C.newTuple [b1, bh, b3]] [] u = (Except.ok entriesObj, u)) →
      C.downcastTuple entriesObj = some [r1, r2] →
      C.classOf b1 = t1 → C.classOf r1 = t1 → C.classOf r2 = t1 → C.classOf b3 = t1 →
      C.fastIssubclass t1 C.typeType = true → C.fastIssubclass t1 t1 = true →
      QuietPrepare C t1 d → NoTypeParams C f e0 → BodyReturns C f d nobj →
      C.isNone nobj = true →
      C.setItem d "__orig_bases__" (C.newTuple [b1, bh, b3]) s = (Except.ok (), s1) →
      QuietDelete C d →
      (∀ u, C.call t1 [C.newStr "C", C.newTuple [b1, r1, r2, b3], d] [] u =
        (Except.ok cls, u)) →
      buildClass C f "C" [b1, bh, b3] [] s = (Except.ok cls, s1)) ∧
    (∀ f b1 t1 d nobj cls e0,
      C.isTypeInstance b1 = true → C.classOf b1 = t1 →
      C.fastIssubclass t1 C.typeType = true →
      QuietPrepare C t1 d → NoTypeParams C f e0 → BodyReturns C f d nobj →
      C.isNone nobj = true → QuietDelete C d →
      (∀ u, C.call t1 [C.newStr "C", C.newTuple [b1], d] [] u = (Except.ok cls, u)) →
      buildClass C f "C" [b1] [] s = (Except.ok cls, s)) := by
  refine ⟨?_, ?_, ?_, ?_⟩
  · intro basesT b1 b2 h1 h2 u
    simp [normalizeBases, h1, h2, Eff.pure]
  · intro basesT b1 bh b3 meth entriesObj r1 r2 h1 hh h3 hgh hg3 hcm hdc u
    simp [normalizeBases, h1, hh, h3, hgh, hg3, hcm, hdc, Eff.bind, Eff.pure]
  · intro f b1 bh b3 meth entriesObj r1 r2 t1 d nobj cls e0 s1
      h1 hh h3 hgh hg3 hcm hdc hcb1 hcr1 hcr2 hcb3 ht1 htt hq htp hbody hnone
      horig hdel hcall
    obtain ⟨hprep, hdict, hmap⟩ := hq
    unfold NoTypeParams at htp
    unfold BodyReturns at hbody
    unfold QuietDelete at hdel
    simp [buildClass, normalizeBases, popKwarg, calculateMeta, Eff.bind, Eff.pure,
      Eff.throw, Eff.newDictE, Eff.ignoreErr, setTypeParamsPre, setTypeParamsPost,
      cellFromObject, verifyCell, show classTargetName "C" = "C" from rfl,
      h1, hh, h3, hgh, hg3, hcm, hdc, hcb1, hcr1, hcr2, hcb3, ht1, htt,
      hprep, hdict, hmap, htp, hbody, hnone, horig, hdel, hcall]
  · intro f b1 t1 d nobj cls e0 h1 hcb1 ht1 hq htp hbody hnone hdel hcall
    obtain ⟨hprep, hdict, hmap⟩ := hq
    unfold NoTypeParams at htp
    unfold BodyReturns at hbody
    unfold QuietDelete at hdel
    simp [buildClass, normalizeBases, popKwarg, calculateMeta, Eff.bind, Eff.pure,
      Eff.throw, Eff.newDictE, Eff.ignoreErr, setTypeParamsPre, setTypeParamsPost,
      cellFromObject, verifyCell, show classTargetName "C" = "C" from rfl,
      h1, hcb1, ht1, hprep, hdict, hmap, htp, hbody, hnone, hdel, hcall]

/-- Witness world for base normalization: like `baseCtx`, but the spliced
replacement bases 11, 12 and the hook-less base 13 all have class `t1`, and
`setItem` bumps the step counter so the `__orig_bases__` store is
observable. -/
def ctxSplice : VMCtx Nat :=
  { baseCtx with
    classOf := fun o =>
      if o.id == 3 || o.id == 11 || o.id == 12 || o.id == 13 then ⟨1⟩
      else if o.id == 4 then ⟨2⟩ else ⟨90⟩
    setItem := fun _ _ _ s => (Except.ok (), s + 1) }

theorem C3_base_normalization_witness :
    (∀ u, normalizeBases baseCtx ⟨60⟩ [⟨3⟩, ⟨4⟩] [⟨3⟩, ⟨4⟩] 0 none u =
      (Except.ok none, u)) ∧
    (∀ u, normalizeBases baseCtx ⟨60⟩ [⟨3⟩, ⟨16⟩, ⟨13⟩] [⟨3⟩, ⟨16⟩, ⟨13⟩] 0 none u =
      (Except.ok (some [⟨3⟩, ⟨11⟩, ⟨12⟩, ⟨13⟩]), u)) ∧
    buildClass ctxSplice ⟨5⟩ "C" [⟨3⟩, ⟨16⟩, ⟨13⟩] [] 0 = (Except.ok ⟨7⟩, 1) ∧
    buildClass baseCtx ⟨5⟩ "C" [⟨3⟩] [] 0 = (Except.ok ⟨7⟩, 0) := by
  have h := C3_base_normalization baseCtx 0
  have h2 := C3_base_normalization ctxSplice 0
  refine ⟨h.1 ⟨60⟩ ⟨3⟩ ⟨4⟩ rfl rfl,
    h.2.1 ⟨60⟩ ⟨3⟩ ⟨16⟩ ⟨13⟩ ⟨19⟩ ⟨10⟩ ⟨11⟩ ⟨12⟩ rfl rfl rfl (fun _ => rfl)
      (fun _ => rfl) (fun _ => rfl) rfl,
    h2.2.2.1 ⟨5⟩ ⟨3⟩ ⟨16⟩ ⟨13⟩ ⟨19⟩ ⟨10⟩ ⟨11⟩ ⟨12⟩ ⟨1⟩ ⟨6⟩ ⟨15⟩ ⟨7⟩
      (PyErr.typeError "attribute") 1 rfl rfl rfl (fun _ => rfl) (fun _ => rfl)
      (fun _ => rfl) rfl rfl rfl rfl rfl rfl rfl
      ⟨fun _ => rfl, fun _ => rfl, rfl⟩ (fun _ => rfl) (fun _ => rfl) rfl rfl
      (fun _ => rfl) (fun _ => rfl),
    h.2.2.2 ⟨5⟩ ⟨3⟩ ⟨1⟩ ⟨6⟩ ⟨15⟩ ⟨7⟩ (PyErr.typeError "attribute") rfl rfl rfl
      ⟨fun _ => rfl, fun _ => rfl, rfl⟩ (fun _ => rfl) (fun _ => rfl) rfl
      (fun _ => rfl) (fun _ => rfl)⟩

/-- C6: namespace preparation.  (i) When the chosen metaclass (here the root
type object, with a keyword argument list `kw` not containing `metaclass`)
exposes a `__prepare__` hook, the hook is invoked with the class name, the
base tuple and the keyword arguments, and a non-mapping result fails with a
type error naming the metaclass and the offending result's type.  (ii) When
the hook is absent, the namespace defaults to the fresh dict allocated by
`vm.ctx.new_dict()`: the class body executes with that dict as its local
namespace and the metaclass receives it. -/
theorem C6_namespace_preparation {σ : Type} (C : VMCtx σ) (s : σ)
    (f : Obj) (kw : List (String × Obj))
    (hpop : popKwarg "metaclass" kw = (none, kw)) :
    (∀ p ns0,
      (∀ u, C.getAttributeOpt C.typeType "__prepare__" u = (Except.ok (some p), u)) →
      (∀ u, C.call p [C.newStr "C", C.newTuple []] kw u = (Except.ok ns0, u)) →
      C.isMapping ns0 = false →
      buildClass C f "C" [] kw s =
        (Except.error (PyErr.typeError
          (C.slotName C.typeType ++ ".__prepare__() must return a mapping, not "
            ++ C.slotName (C.classOf ns0))), s)) ∧
    (∀ d nobj cls e0,
      QuietPrepare C C.typeType d → NoTypeParams C f e0 →
      BodyReturns C f d nobj → C.isNone nobj = true → QuietDelete C d →
      (∀ u, C.call C.typeType [C.newStr "C", C.newTuple [], d] kw u =
        (Except.ok cls, u)) →
      buildClass C f "C" [] kw s = (Except.ok cls, s)) := by
  refine ⟨?_, ?_⟩
  · intro p ns0 hgp hcp hnm
    simp [buildClass, normalizeBases, popKwarg, hpop, calculateMeta, Eff.bind,
      Eff.pure, Eff.throw, show classTargetName "C" = "C" from rfl,
      hgp, hcp, hnm]
  · intro d nobj cls e0 hq htp hbody hnone hdel hcall
    obtain ⟨hprep, hdict, hmap⟩ := hq
    unfold NoTypeParams at htp
    unfold BodyReturns at hbody
    unfold QuietDelete at hdel
    simp [buildClass, normalizeBases, popKwarg, hpop, calculateMeta, Eff.bind,
      Eff.pure, Eff.throw, Eff.newDictE, Eff.ignoreErr, setTypeParamsPre,
      setTypeParamsPost, cellFromObject, verifyCell,
      show classTargetName "C" = "C" from rfl,
      hprep, hdict, hmap, htp, hbody, hnone, hdel, hcall]

/-- Witness world in which the root type object exposes a `__prepare__` hook
(object 8) whose call returns the non-mapping object 9. -/
def ctxPrepareHook : VMCtx Nat :=
  { baseCtx with
    getAttributeOpt := fun o a s =>
      (Except.ok (if o.id == 0 && a == "__prepare__" then some ⟨8⟩
        else if o.id == 16 && a == "__mro_entries__" then some ⟨19⟩ else none), s) }

theorem C6_namespace_preparation_witness :
    buildClass ctxPrepareHook ⟨5⟩ "C" [] [("k", ⟨44⟩)] 0 =
      (Except.error (PyErr.typeError
        "type.__prepare__() must return a mapping, not cls"), 0) ∧
    buildClass baseCtx ⟨5⟩ "C" [] [("k", ⟨44⟩)] 0 = (Except.ok ⟨7⟩, 0) := by
  refine ⟨(C6_namespace_preparation ctxPrepareHook 0 ⟨5⟩ [("k", ⟨44⟩)] rfl).1
      ⟨8⟩ ⟨9⟩ (fun _ => rfl) (fun _ => rfl) rfl,
    (C6_namespace_preparation baseCtx 0 ⟨5⟩ [("k", ⟨44⟩)] rfl).2
      ⟨6⟩ ⟨15⟩ ⟨7⟩ (PyErr.typeError "attribute")
      ⟨fun _ => rfl, fun _ => rfl, rfl⟩ (fun _ => rfl) (fun _ => rfl) rfl
      (fun _ => rfl) (fun _ => rfl)⟩

/-- C7 counterexample to the claim as stated: an explicit `metaclass`
keyword argument holding a non-type object (object 20, whose class is not
the root type object) does *not* make the construction fail — the object is
kept as the metaclass, base-derived determination is skipped, and calling it
produces the returned class (object 21). -/
theorem C7_metaclass_keyword_counterexample :
    buildClass baseCtx ⟨5⟩ "C" [] [("metaclass", ⟨20⟩)] 0 = (Except.ok ⟨21⟩, 0) :=
  rfl

/-- C7 (amended): (i) an explicit `metaclass` keyword that is not exactly a
type object is not rejected: the base-derived metaclass determination loop
is skipped entirely (no hypothesis about `classOf` or `fastIssubclass` is
needed, even with a base present) and the value itself is invoked to
construct the class; (ii) an explicit keyword that is exactly a type object
is used as the starting candidate; (iii) when the keyword is absent, the
starting candidate is the root type object, which performs the construction
call. -/
theorem C7_metaclass_keyword {σ : Type} (C : VMCtx σ) (s : σ)
    (f d nobj cls : Obj) (e0 : PyErr)
    (htp : NoTypeParams C f e0) (hnone : C.isNone nobj = true)
    (hbody : BodyReturns C f d nobj) (hdel : QuietDelete C d) :
    (∀ m b1, C.downcastExactType m = false → C.isTypeInstance b1 = true →
      QuietPrepare C m d →
      (∀ u, C.call m [C.newStr "C", C.newTuple [b1], d] [] u = (Except.ok cls, u)) →
      buildClass C f "C" [b1] [("metaclass", m)] s = (Except.ok cls, s)) ∧
    (∀ m, C.downcastExactType m = true →
      QuietPrepare C m d →
      (∀ u, C.call m [C.newStr "C", C.newTuple [], d] [] u = (Except.ok cls, u)) →
      buildClass C f "C" [] [("metaclass", m)] s = (Except.ok cls, s)) ∧
    (QuietPrepare C C.typeType d →
      (∀ u, C.call C.typeType [C.newStr "C", C.newTuple [], d] [] u =
        (Except.ok cls, u)) →
      buildClass C f "C" [] [] s = (Except.ok cls, s)) := by
  unfold NoTypeParams at htp
  unfold BodyReturns at hbody
  unfold QuietDelete at hdel
  refine ⟨?_, ?_, ?_⟩
  · intro m b1 hm hb1 hq hcall
    obtain ⟨hprep, hdict, hmap⟩ := hq
    simp [buildClass, normalizeBases, popKwarg, calculateMeta, Eff.bind, Eff.pure,
      Eff.throw, Eff.newDictE, Eff.ignoreErr, setTypeParamsPre, setTypeParamsPost,
      cellFromObject, verifyCell, show classTargetName "C" = "C" from rfl,
      hm, hb1, hprep, hdict, hmap, htp, hbody, hnone, hdel, hcall]
  · intro m hm hq hcall
    obtain ⟨hprep, hdict, hmap⟩ := hq
    simp [buildClass, normalizeBases, popKwarg, calculateMeta, Eff.bind, Eff.pure,
      Eff.throw, Eff.newDictE, Eff.ignoreErr, setTypeParamsPre, setTypeParamsPost,
      cellFromObject, verifyCell, show classTargetName "C" = "C" from rfl,
      hm, hprep, hdict, hmap, htp, hbody, hnone, hdel, hcall]
  · intro hq hcall
    obtain ⟨hprep, hdict, hmap⟩ := hq
    simp [buildClass, normalizeBases, popKwarg, calculateMeta, Eff.bind, Eff.pure,
      Eff.throw, Eff.newDictE, Eff.ignoreErr, setTypeParamsPre, setTypeParamsPost,
      cellFromObject, verifyCell, show classTargetName "C" = "C" from rfl,
      hprep, hdict, hmap, htp, hbody, hnone, hdel, hcall]

theorem C7_metaclass_keyword_witness :
    buildClass baseCtx ⟨5⟩ "C" [⟨3⟩] [("metaclass", ⟨20⟩)] 0 = (Except.ok ⟨21⟩, 0) ∧
    buildClass baseCtx ⟨5⟩ "C" [] [("metaclass", ⟨0⟩)] 0 = (Except.ok ⟨7⟩, 0) ∧
    buildClass baseCtx ⟨5⟩ "C" [] [] 0 = (Except.ok ⟨7⟩, 0) := by
  have h := C7_metaclass_keyword baseCtx 0 ⟨5⟩ ⟨6⟩ ⟨15⟩ ⟨21⟩
    (PyErr.typeError "attribute") (fun _ => rfl) rfl (fun _ => rfl) (fun _ => rfl)
  have h2 := C7_metaclass_keyword baseCtx 0 ⟨5⟩ ⟨6⟩ ⟨15⟩ ⟨7⟩
    (PyErr.typeError "attribute") (fun _ => rfl) rfl (fun _ => rfl) (fun _ => rfl)
  exact ⟨h.1 ⟨20⟩ ⟨3⟩ rfl rfl ⟨fun _ => rfl, fun _ => rfl, rfl⟩ (fun _ => rfl),
    h2.2.1 ⟨0⟩ rfl ⟨fun _ => rfl, fun _ => rfl, rfl⟩ (fun _ => rfl),
    h2.2.2 ⟨fun _ => rfl, fun _ => rfl, rfl⟩ (fun _ => rfl)⟩

/-- C10: before invoking the metaclass, `__build_class__` attempts to delete
the reserved `.type_params` key from the prepared namespace even when the
key was never inserted (here the class body carries no type-parameter
metadata: reading `__type_params__` fails with `e0`, so nothing was ever
stored), and an error `e1` raised by the deletion is silently discarded:
the construction still succeeds, and the final state `s1` is the one
produced by the failing deletion, witnessing that the deletion ran. -/
theorem C10_type_params_deletion {σ : Type} (C : VMCtx σ) (s s1 : σ)
    (f d nobj cls : Obj) (e0 e1 : PyErr)
    (hq : QuietPrepare C C.typeType d) (htp : NoTypeParams C f e0)
    (hbody : BodyReturns C f d nobj) (hnone : C.isNone nobj = true)
    (hdel : C.delItem d ".type_params" s = (Except.error e1, s1))
    (hcall : ∀ u, C.call C.typeType [C.newStr "C", C.newTuple [], d] [] u =
      (Except.ok cls, u)) :
    buildClass C f "C" [] [] s = (Except.ok cls, s1) := by
  obtain ⟨hprep, hdict, hmap⟩ := hq
  unfold NoTypeParams at htp
  unfold BodyReturns at hbody
  simp [buildClass, normalizeBases, popKwarg, calculateMeta, Eff.bind, Eff.pure,
    Eff.throw, Eff.newDictE, Eff.ignoreErr, setTypeParamsPre, setTypeParamsPost,
    cellFromObject, verifyCell, show classTargetName "C" = "C" from rfl,
    hprep, hdict, hmap, htp, hbody, hnone, hdel, hcall]

/-- Witness world where deleting from the namespace raises a missing-key
error and bumps the step counter. -/
def ctxDelErr : VMCtx Nat :=
  { baseCtx with
    delItem := fun _ _ s => (Except.error (PyErr.typeError "KeyError"), s + 1) }

theorem C10_type_params_deletion_witness :
    buildClass ctxDelErr ⟨5⟩ "C" [] [] 0 = (Except.ok ⟨7⟩, 1) :=
  C10_type_params_deletion ctxDelErr 0 1 ⟨5⟩ ⟨6⟩ ⟨15⟩ ⟨7⟩
    (PyErr.typeError "attribute") (PyErr.typeError "KeyError")
    ⟨fun _ => rfl, fun _ => rfl, rfl⟩ (fun _ => rfl) (fun _ => rfl) rfl rfl
    (fun _ => rfl)

/-- Helper: `takeWhile` consumes a block that satisfies the predicate and
stops at the first failing element. -/
theorem takeWhileAppendStop {α : Type} (p : α → Bool) (a : List α) (c : α)
    (b : List α) (ha : ∀ x ∈ a, p x = true) (hc : p c = false) :
    (a ++ c :: b).takeWhile p = a := by
  induction a with
  | nil => simp [List.takeWhile_cons, hc]
  | cons x xs ih =>
    have hx := ha x (by simp)
    simp only [List.cons_append, List.takeWhile_cons, hx, if_true]
    rw [ih (fun y hy => ha y (by simp [hy]))]

/-- Helper: `takeWhile` keeps a list all of whose elements satisfy the
predicate. -/
theorem takeWhileAll {α : Type} (p : α → Bool) (a : List α)
    (ha : ∀ x ∈ a, p x = true) : a.takeWhile p = a := by
  induction a with
  | nil => simp
  | cons x xs ih =>
    have hx := ha x (by simp)
    simp only [List.takeWhile_cons, hx, if_true]
    rw [ih (fun y hy => ha y (by simp [hy]))]

/-- C9: the name given to the constructed type is the substring of the
qualified name after its last `'.'` separator: (i) for any split
`pre ++ '.' :: suf` with no `'.'` in `suf`, the extracted name is `suf`;
(ii) a qualified name containing no `'.'` is used whole; (iii) the
qualified name `"a.b.Point"` yields `"Point"`; (iv) end to end, building a
class with qualified name `"a.b.Point"` passes the string object for
`"Point"` to the metaclass call. -/
theorem C9_name_extraction :
    (∀ pre suf : List Char, '.' ∉ suf →
      lastComponent (pre ++ '.' :: suf) = suf) ∧
    (∀ l : List Char, '.' ∉ l → lastComponent l = l) ∧
    classTargetName "a.b.Point" = "Point" ∧
    (∀ (σ : Type) (C : VMCtx σ) (s : σ) (f d nobj cls : Obj) (e0 : PyErr),
      QuietPrepare C C.typeType d → NoTypeParams C f e0 →
      BodyReturns C f d nobj → C.isNone nobj = true → QuietDelete C d →
      (∀ u, C.call C.typeType [C.newStr "Point", C.newTuple [], d] [] u =
        (Except.ok cls, u)) →
      buildClass C f "a.b.Point" [] [] s = (Except.ok cls, s)) := by
  refine ⟨?_, ?_, rfl, ?_⟩
  · intro pre suf hdot
    unfold lastComponent
    have hrev : (pre ++ '.' :: suf).reverse = suf.reverse ++ '.' :: pre.reverse := by
      simp
    rw [hrev, takeWhileAppendStop _ suf.reverse '.' pre.reverse
      (fun x hx => by
        have hxs : x ∈ suf := List.mem_reverse.mp hx
        simp only [ne_eq, decide_eq_true_eq]
        exact fun h => hdot (h ▸ hxs))
      (by simp), List.reverse_reverse]
  · intro l hdot
    unfold lastComponent
    rw [takeWhileAll _ l.reverse
      (fun x hx => by
        have hxs : x ∈ l := List.mem_reverse.mp hx
        simp only [ne_eq, decide_eq_true_eq]
        exact fun h => hdot (h ▸ hxs)), List.reverse_reverse]
  · intro σ C s f d nobj cls e0 hq htp hbody hnone hdel hcall
    obtain ⟨hprep, hdict, hmap⟩ := hq
    unfold NoTypeParams at htp
    unfold BodyReturns at hbody
    unfold QuietDelete at hdel
    simp [buildClass, normalizeBases, popKwarg, calculateMeta, Eff.bind, Eff.pure,
      Eff.throw, Eff.newDictE, Eff.ignoreErr, setTypeParamsPre, setTypeParamsPost,
      cellFromObject, verifyCell, show classTargetName "a.b.Point" = "Point" from rfl,
      hprep, hdict, hmap, htp, hbody, hnone, hdel, hcall]

theorem C9_name_extraction_witness :
    lastComponent ("a.b".data ++ '.' :: "Point".data) = "Point".data ∧
    lastComponent "Point".data = "Point".data ∧
    buildClass baseCtx ⟨5⟩ "a.b.Point" [] [] 0 = (Except.ok ⟨7⟩, 0) := by
  refine ⟨C9_name_extraction.1 "a.b".data "Point".data (by decide),
    C9_name_extraction.2.1 "Point".data (by decide),
    C9_name_extraction.2.2.2 Nat baseCtx 0 ⟨5⟩ ⟨6⟩ ⟨15⟩ ⟨7⟩
      (PyErr.typeError "attribute") ⟨fun _ => rfl, fun _ => rfl, rfl⟩
      (fun _ => rfl) (fun _ => rfl) rfl (fun _ => rfl) (fun _ => rfl)⟩

/-! ## Theorems about the protocol handles -/

/-- C5: binding a callable handle fails with a type error exactly when the
object's type chain lacks a call slot; on success the handle stores the
object and the resolved slot.  Binding is a pure function of the object (no
invocation of user code occurs). -/
theorem C5_callable_binding (obj : PyObjP) :
    (toCallable obj = none →
      ArgCallableP.try_from_object obj =
        Except.error (PyErr.typeError
          ("'" ++ obj.cls.name ++ "' object is not callable"))) ∧
    (∀ c, toCallable obj = some c →
      ArgCallableP.try_from_object obj = Except.ok { obj := obj, call := c }) ∧
    ((∃ hc, ArgCallableP.try_from_object obj = Except.ok hc) ↔
      (toCallable obj).isSome = true) := by
  refine ⟨?_, ?_, ?_⟩
  · intro h
    simp [ArgCallableP.try_from_object, h]
  · intro c h
    simp [ArgCallableP.try_from_object, h]
  · cases h : toCallable obj <;> simp [ArgCallableP.try_from_object, h]

/-- C4: binding an iterable handle succeeds exactly when the type chain
exposes an iterate slot or `__getitem__`; when both are absent it fails with
a type error; when only the iterate slot is absent, the handle records
`iter_fn = none` and its realization is the subscript fallback cursor, which
starts at index 0. -/
theorem C4_iterable_binding (obj : PyObjP) :
    ((∃ h, ArgIterableP.try_from_object obj = Except.ok h) ↔
      ((mroFindMap obj.cls.mro (fun e => e.iterSlot)).isSome = true ∨
        hasGetitem obj.cls = true)) ∧
    (mroFindMap obj.cls.mro (fun e => e.iterSlot) = none →
      hasGetitem obj.cls = false →
      ArgIterableP.try_from_object obj =
        Except.error (PyErr.typeError
          ("'" ++ obj.cls.name ++ "' object is not iterable"))) ∧
    (∀ fid, mroFindMap obj.cls.mro (fun e => e.iterSlot) = some fid →
      ArgIterableP.try_from_object obj =
        Except.ok { iterable := obj, iter_fn := some fid }) ∧
    (mroFindMap obj.cls.mro (fun e => e.iterSlot) = none →
      hasGetitem obj.cls = true →
      ArgIterableP.try_from_object obj =
        Except.ok { iterable := obj, iter_fn := none } ∧
      (ArgIterableP.mk obj none).iterPulls =
        Except.ok (PySequenceIteratorP.new obj).pulls ∧
      (PySequenceIteratorP.new obj).position = 0) := by
  refine ⟨?_, ?_, ?_, ?_⟩
  · cases hm : mroFindMap obj.cls.mro (fun e => e.iterSlot) <;>
      cases hg : hasGetitem obj.cls <;>
      simp [ArgIterableP.try_from_object, hm, hg]
  · intro hm hg
    simp [ArgIterableP.try_from_object, hm, hg]
  · intro fid hm
    simp [ArgIterableP.try_from_object, hm]
  · intro hm hg
    exact ⟨by simp [ArgIterableP.try_from_object, hm, hg],
      by simp [ArgIterableP.iterPulls], rfl⟩

/-- Witness class exposing only an iterate slot. -/
def clsIterW : PyClassP :=
  { name := "withiter", mro := [{ callSlot := none, iterSlot := some 4, getitemAttr := false }] }

/-- Witness class exposing only `__getitem__`. -/
def clsSeqW : PyClassP :=
  { name := "withgetitem", mro := [{ callSlot := none, iterSlot := none, getitemAttr := true }] }

/-- Witness class exposing no capability at all. -/
def clsPlainW : PyClassP :=
  { name := "plain", mro := [{ callSlot := none, iterSlot := none, getitemAttr := false }] }

/-- Witness class exposing only a call slot. -/
def clsCallW : PyClassP :=
  { name := "func", mro := [{ callSlot := some 7, iterSlot := none, getitemAttr := false }] }

/-- Witness object with an iterate slot yielding 1 then 2. -/
def objIterW : PyObjP :=
  { cls := clsIterW, slotStream := Except.ok [Except.ok 1, Except.ok 2], items := [] }

/-- Witness object whose iterator errors on the second pull. -/
def objIterErrW : PyObjP :=
  { cls := clsIterW,
    slotStream := Except.ok [Except.ok 1, Except.error (PyErr.user 12)], items := [] }

/-- Witness object with subscript items 9 then 8 and no iterate slot. -/
def objSeqW : PyObjP :=
  { cls := clsSeqW, slotStream := Except.error (PyErr.user 0),
    items := [Except.ok 9, Except.ok 8] }

/-- Witness object with no iteration capability. -/
def objPlainW : PyObjP :=
  { cls := clsPlainW, slotStream := Except.error (PyErr.user 0), items := [] }

/-- Witness object with a call slot. -/
def objCallW : PyObjP :=
  { cls := clsCallW, slotStream := Except.error (PyErr.user 0), items := [] }

/-- Witness conversion: accepts values below 10, rejects the rest. -/
def convW : Nat → Except PyErr Nat :=
  fun n => if n < 10 then Except.ok n else Except.error (PyErr.user n)

theorem C5_callable_binding_witness :
    ArgCallableP.try_from_object objCallW =
      Except.ok { obj := objCallW, call := 7 } ∧
    ArgCallableP.try_from_object objPlainW =
      Except.error (PyErr.typeError "'plain' object is not callable") :=
  ⟨(C5_callable_binding objCallW).2.1 7 rfl,
    (C5_callable_binding objPlainW).1 rfl⟩

theorem C4_iterable_binding_witness :
    ArgIterableP.try_from_object objIterW =
      Except.ok { iterable := objIterW, iter_fn := some 4 } ∧
    ArgIterableP.try_from_object objSeqW =
      Except.ok { iterable := objSeqW, iter_fn := none } ∧
    (ArgIterableP.mk objSeqW none).iterPulls =
      Except.ok (PySequenceIteratorP.new objSeqW).pulls ∧
    (PySequenceIteratorP.new objSeqW).position = 0 ∧
    ArgIterableP.try_from_object objPlainW =
      Except.error (PyErr.typeError "'plain' object is not iterable") := by
  have hf := (C4_iterable_binding objSeqW).2.2.2 rfl rfl
  exact ⟨(C4_iterable_binding objIterW).2.2.1 4 rfl, hf.1, hf.2.1, hf.2.2,
    (C4_iterable_binding objPlainW).2.1 rfl rfl⟩

/-- Helper for C8: the eager drain loop computes the same answer as driving
the lazy adapter and prepending the reversed accumulator. -/
theorem drainLoopEq {α : Type} (conv : Nat → Except PyErr α)
    (pulls : List (Except PyErr Nat)) : ∀ acc,
    drainLoop conv pulls acc =
      (match driveIter conv pulls with
       | Except.error e => Except.error e
       | Except.ok ts => Except.ok (acc.reverse ++ ts)) := by
  induction pulls with
  | nil => intro acc; simp [drainLoop, driveIter]
  | cons p rest ih =>
    intro acc
    cases p with
    | error e => simp [drainLoop, driveIter]
    | ok v =>
      cases hcv : conv v with
      | error e => simp [drainLoop, driveIter, hcv]
      | ok t =>
        rw [show drainLoop conv (Except.ok v :: rest) acc
            = drainLoop conv rest (t :: acc) by simp [drainLoop, hcv],
          ih (t :: acc)]
        cases hd : driveIter conv rest <;> simp [driveIter, hcv, hd]

/-- C8: for every object on which the iterable handle binds, the eager
sequence binding returns exactly the result of driving the lazily realized
iteration to completion with per-element conversion: the same elements in
the same order on success, and the same first error on failure (with no
partial result). -/
theorem C8_eager_matches_lazy {α : Type} (conv : Nat → Except PyErr α)
    (obj : PyObjP) (h : ArgIterableP)
    (hb : ArgIterableP.try_from_object obj = Except.ok h) :
    ArgSequenceP.try_from_object conv obj =
      (match h.iterPulls with
       | Except.error e => Except.error e
       | Except.ok pulls =>
         match driveIter conv pulls with
         | Except.error e => Except.error e
         | Except.ok v => Except.ok { vec := v }) := by
  unfold ArgSequenceP.try_from_object
  rw [hb]
  cases hp : h.iterPulls with
  | error e => simp [hp]
  | ok pulls =>
    simp only [hp]
    rw [drainLoopEq conv pulls []]
    cases hd : driveIter conv pulls <;> simp [hd]

theorem C8_eager_matches_lazy_witness :
    ArgSequenceP.try_from_object convW objIterW = Except.ok { vec := [1, 2] } ∧
    ArgSequenceP.try_from_object convW objIterErrW =
      Except.error (PyErr.user 12) ∧
    ArgSequenceP.try_from_object convW objSeqW = Except.ok { vec := [9, 8] } := by
  refine ⟨?_, ?_, ?_⟩
  · rw [C8_eager_matches_lazy convW objIterW
      { iterable := objIterW, iter_fn := some 4 } rfl]
    rfl
  · rw [C8_eager_matches_lazy convW objIterErrW
      { iterable := objIterErrW, iter_fn := some 4 } rfl]
    rfl
  · rw [C8_eager_matches_lazy convW objSeqW
      { iterable := objSeqW, iter_fn := none } rfl]
    rfl
